import Mathlib

/-!
# Verification of the UVZ research/content pipeline (uvz_server.py)

A shallow embedding of the orchestration pipeline of `uvz_server.py`:
the input sanitizer, the search aggregator, the analysis-backend adapter
and the nine pipeline operations.  External collaborators (the HTTP
transport, the HTML parser, the generative backend) are modelled as an
explicit environment `Env`; the observable effects of one invocation
(search queries issued, prompts sent to the backend) are collected in a
`Trace`.

Modelling conventions:
* Python strings are Lean `String`s; the regex character classes `\w` and
  `\s` of `re.sub(r'[^\w\s\-,.]', '', text)` and of `str.strip()` are
  modelled at the ASCII level (`[A-Za-z0-9_]` and the six ASCII whitespace
  characters).
* `int(s)` is modelled by `pyInt`, which strips ASCII whitespace, accepts
  an optional sign followed by decimal digits, and otherwise fails with
  the CPython error message; failure is an `Except.error`, caught by the
  operation-level `try/except` exactly where the source catches it.
* `web_search_free` serializes its result list with `json.dumps` and every
  caller immediately applies `json.loads`; this round trip is the identity
  on the result list, so the embedding passes the list directly.
-/

/-- ASCII whitespace, the ASCII-level model of Python's `\s` class and of
the default `str.strip()` character set. -/
def pyIsSpace (c : Char) : Bool :=
  c = ' ' || c = '\t' || c = '\n' || c = '\r' || c = '\x0b' || c = '\x0c'

/-- The character class kept by `sanitize_input`, i.e. the complement of the
regex `[^\w\s\-,.]` at the ASCII level: word characters, whitespace,
hyphen, comma, period. -/
def isAllowedChar (c : Char) : Bool :=
  c.isAlpha || c.isDigit || c = '_' || pyIsSpace c || c = '-' || c = ',' || c = '.'

/-- `sanitize_input(text)` = `re.sub(r'[^\w\s\-,.]', '', text)`
(uvz_server.py line 26): delete every character outside the allowed class. -/
def sanitize_input (text : String) : String :=
  ⟨text.data.filter isAllowedChar⟩

/-- Python truthiness of `text.strip()`: `not text.strip()` holds exactly
when every character of `text` is whitespace (including the empty string). -/
def isBlank (s : String) : Bool :=
  s.data.all pyIsSpace

/-- `str.strip()`: remove leading and trailing whitespace. -/
def pyStrip (s : String) : String :=
  ⟨((s.data.dropWhile pyIsSpace).reverse.dropWhile pyIsSpace).reverse⟩

/-- Decimal value of a digit list (most significant first). -/
def digitsVal (l : List Char) : Nat :=
  l.foldl (fun a c => a * 10 + (c.toNat - 48)) 0

/-- CPython `int(s)`: strip whitespace, optional sign, decimal digits;
anything else raises `ValueError: invalid literal for int() with base 10`. -/
def pyInt (s : String) : Except String Int :=
  let t := (pyStrip s).data
  let signed : Int × List Char :=
    match t with
    | '+' :: r => (1, r)
    | '-' :: r => (-1, r)
    | r => (1, r)
  if signed.2 ≠ [] ∧ signed.2.all Char.isDigit then
    .ok (signed.1 * (digitsVal signed.2 : Int))
  else
    .error ("invalid literal for int() with base 10: \x27" ++ s ++ "\x27")

/-- `int(s) if s.strip() else d` — the numeric-parameter idiom shared by
`identify_industry_niches`, `research_uvz_topic`, `generate_ebook_outline`
and `competitive_analysis`. -/
def pyIntOr (s : String) (d : Int) : Except String Int :=
  if isBlank s then .ok d else pyInt s

/-- Python list slicing `l[:n]` for a possibly negative `n`. -/
def pyTake (n : Int) (l : List α) : List α :=
  if 0 ≤ n then l.take n.toNat else l.take (l.length - n.natAbs)

/-- `content.split()`: split on whitespace runs, dropping empty pieces. -/
def pySplitWs (s : String) : List String :=
  (s.split pyIsSpace).filter (fun p => p ≠ "")

/-- One extracted search result: `{'title': ..., 'link': ..., 'snippet': ...}`
(uvz_server.py line 42). -/
structure SearchResult where
  title : String
  link : String
  snippet : String
deriving DecidableEq, Repr

/-- One raw `div.result` block of the parsed markup: the title anchor may be
missing (such blocks are skipped), `get('href', '')` defaults the link, and a
missing snippet anchor yields the empty snippet. -/
structure RawBlock where
  title : Option String
  link : String
  snippet : Option String
deriving DecidableEq, Repr

/-- Outcome of the HTTP fetch + parse inside `web_search_free`'s `try` block:
either the list of parsed `div.result` blocks, or an exception (transport
error, timeout, non-2xx status from `raise_for_status`, or parse failure). -/
inductive FetchOutcome where
  | ok (blocks : List RawBlock)
  | exn (msg : String)
deriving DecidableEq, Repr

/-- The two external collaborators plus process configuration:
`hasModel` is whether `GEMINI_API_KEY` was set at startup (so `model` is not
`None`); `gemini` is the behaviour of `model.generate_content` (`.error` =
the backend raised); `fetch` is the behaviour of the HTTP fetch + parse. -/
structure Env where
  hasModel : Bool
  gemini : String → Except String String
  fetch : String → FetchOutcome

/-- Observable effects of one invocation: search queries issued over the
network and prompts sent to the generative backend, in order. -/
structure Trace where
  queries : List String
  prompts : List String
deriving DecidableEq, Repr

/-- The empty trace: no network call, no backend call. -/
def Trace.empty : Trace := ⟨[], []⟩

/-- Traces compose in sequence. -/
def Trace.append (a b : Trace) : Trace :=
  ⟨a.queries ++ b.queries, a.prompts ++ b.prompts⟩

instance : Append Trace := ⟨Trace.append⟩

/-- `web_search_free(query)` (uvz_server.py lines 29-46): issue the query;
on success keep at most 10 result blocks, skip blocks without a title,
default missing links/snippets to `""`; any exception inside the `try` is
caught and converted to the empty result list.  The `json.dumps` /
`json.loads` round trip performed between this function and its callers is
the identity on the result list and is elided. -/
def web_search_free (env : Env) (query : String) : List SearchResult × Trace :=
  match env.fetch query with
  | .exn _ => ([], ⟨[query], []⟩)
  | .ok blocks =>
    ((blocks.take 10).filterMap fun b =>
      match b.title with
      | none => none
      | some t => some ⟨t, b.link, (b.snippet.getD "")⟩,
     ⟨[query], []⟩)

/-- `gemini_analyze(prompt)` (uvz_server.py lines 48-55): if no API key was
configured return the sentinel without touching the backend; otherwise
forward the prompt, converting a backend exception to `"Error: ..."`. -/
def gemini_analyze (env : Env) (prompt : String) : String × Trace :=
  if env.hasModel = false then
    ("Error: Gemini API key not configured", Trace.empty)
  else
    match env.gemini prompt with
    | .ok text => (text, ⟨[], [prompt]⟩)
    | .error e => ("Error: " ++ e, ⟨[], [prompt]⟩)

/-- `f"{i+1}. {r['title']}\n{r['snippet']}\n{r['link']}"` — the source listing
used by `research_uvz_topic` and `competitive_analysis`. -/
def serializeSource (i : Nat) (r : SearchResult) : String :=
  let j := i + 1
  let t := r.title
  let sn := r.snippet
  let l := r.link
  s!"{j}. {t}\n{sn}\n{l}"

/-- `"\n\n".join(...)` over enumerated results with links. -/
def joinSources (rs : List SearchResult) : String :=
  String.intercalate "\n\n" (rs.enum.map fun p => serializeSource p.1 p.2)

/-- `f"{i+1}. {r['title']}\n{r['snippet']}"` — the signal listing used by
`validate_uvz_demand` (no link). -/
def serializeSignal (i : Nat) (r : SearchResult) : String :=
  let j := i + 1
  let t := r.title
  let sn := r.snippet
  s!"{j}. {t}\n{sn}"

/-- `"\n\n".join(...)` over enumerated results without links. -/
def joinSignals (rs : List SearchResult) : String :=
  String.intercalate "\n\n" (rs.enum.map fun p => serializeSignal p.1 p.2)

/-- `identify_industry_niches(industry, depth)` (uvz_server.py lines 57-71). -/
def identify_industry_niches (env : Env) (industry : String) (depth : String) :
    String × Trace :=
  if isBlank industry then ("Error: Industry name is required", Trace.empty)
  else if env.hasModel = false then
    ("Error: Gemini API key not configured", Trace.empty)
  else
    let industry_clean := sanitize_input industry
    match pyIntOr depth 3 with
    | .error e => ("Error: " ++ e, Trace.empty)
    | .ok depth_int =>
      let prompt := s!"Analyze the {industry_clean} industry and identify {depth_int} highly specific niches. For each provide: 1. Niche Name 2. Market Size 3. Unique Value Zone (UVZ) 4. Target Audience 5. Differentiation 6. Monetization Potential. Format as structured markdown."
      let ar := gemini_analyze env prompt
      let analysis := ar.1
      (s!"Industry Analysis: {industry_clean}\n\n{analysis}\n\nNext Steps: Use drill_uvz to go deeper", ar.2)

/-- `drill_uvz(niche, focus_area)` (uvz_server.py lines 73-87). -/
def drill_uvz (env : Env) (niche : String) (focus_area : String) :
    String × Trace :=
  if isBlank niche then ("Error: Niche description is required", Trace.empty)
  else if env.hasModel = false then
    ("Error: Gemini API key not configured", Trace.empty)
  else
    let niche_clean := sanitize_input niche
    let focus_clean := if isBlank focus_area then "general opportunities"
                       else sanitize_input focus_area
    let prompt := s!"Deep UVZ analysis for niche: {niche_clean}, focus: {focus_clean}. Provide: Problem Statement, Target Avatar, Current Solutions, The Gap, Value Proposition, Validation Signals, Competition Level, Monetization Pathways, Quick Win Strategy. Be extremely specific."
    let ar := gemini_analyze env prompt
    let analysis := ar.1
    (s!"UVZ Deep Dive: {niche_clean}\n\n{analysis}", ar.2)

/-- `research_uvz_topic(topic, sources)` (uvz_server.py lines 89-108). -/
def research_uvz_topic (env : Env) (topic : String) (sources : String) :
    String × Trace :=
  if isBlank topic then ("Error: Topic is required", Trace.empty)
  else
    let topic_clean := sanitize_input topic
    match pyIntOr sources 10 with
    | .error e => ("Error: " ++ e, Trace.empty)
    | .ok num_sources =>
      let sr := web_search_free env s!"{topic_clean} guide tutorial best practices"
      let results_data := sr.1
      if results_data = [] then
        (s!"No search results found for: {topic_clean}", sr.2)
      else
        let sources_text := joinSources (pyTake num_sources results_data)
        if env.hasModel then
          let analysis_prompt := s!"Based on these search results about \x27{topic_clean}\x27, provide: Key Insights, Common Themes, Best Practices, Knowledge Gaps, Content Opportunities.\n\n{sources_text}"
          let ar := gemini_analyze env analysis_prompt
          let ai_analysis := ar.1
          (s!"Research Report: {topic_clean}\n\nAI Analysis:\n{ai_analysis}\n\nSources:\n{sources_text}", sr.2 ++ ar.2)
        else
          (s!"Research Results: {topic_clean}\n\nSources:\n{sources_text}", sr.2)

/-- `validate_uvz_demand(uvz_description)` (uvz_server.py lines 110-130):
three sequential queries, each truncated to its first 3 results, concatenated
in query order. -/
def validate_uvz_demand (env : Env) (uvz_description : String) :
    String × Trace :=
  if isBlank uvz_description then
    ("Error: UVZ description is required", Trace.empty)
  else
    let uvz_clean := sanitize_input uvz_description
    let s1 := web_search_free env s!"{uvz_clean} problems"
    let s2 := web_search_free env s!"{uvz_clean} solutions needed"
    let s3 := web_search_free env s!"how to {uvz_clean}"
    let all_results := s1.1.take 3 ++ s2.1.take 3 ++ s3.1.take 3
    let tq := s1.2 ++ s2.2 ++ s3.2
    if all_results = [] then
      (s!"Limited demand signals found for: {uvz_clean}", tq)
    else
      let findings := joinSignals all_results
      if env.hasModel then
        let validation_prompt := s!"Analyze market signals for: {uvz_clean}\n\n{findings}\n\nProvide: Demand Level, Market Signals, Competition Analysis, Opportunity Score (1-10), Red Flags, Green Lights, Recommended Action (Go/No-Go)."
        let ar := gemini_analyze env validation_prompt
        let validation := ar.1
        (s!"Demand Validation: {uvz_clean}\n\n{validation}\n\nRaw Signals:\n{findings}", tq ++ ar.2)
      else
        (s!"Market Signals: {uvz_clean}\n\n{findings}", tq)

/-- `generate_ebook_outline(topic, audience, length)` (uvz_server.py
lines 132-147). -/
def generate_ebook_outline (env : Env) (topic : String) (audience : String)
    (length : String) : String × Trace :=
  if isBlank topic then ("Error: Topic is required", Trace.empty)
  else if env.hasModel = false then
    ("Error: Gemini API key not configured", Trace.empty)
  else
    let topic_clean := sanitize_input topic
    let audience_clean := if isBlank audience then "general audience"
                          else sanitize_input audience
    match pyIntOr length 50 with
    | .error e => ("Error: " ++ e, Trace.empty)
    | .ok page_count =>
      let prompt := s!"Create comprehensive ebook outline for: Topic: {topic_clean}, Audience: {audience_clean}, Length: ~{page_count} pages. Include: Title, Subtitle, Target Reader, Chapter Structure (10+ chapters with objectives, sections, estimated pages), Unique Selling Points, Key Takeaways, Marketing Hooks."
      let ar := gemini_analyze env prompt
      let outline := ar.1
      (s!"Ebook Outline Generated\n\n{outline}", ar.2)

/-- `expand_chapter(chapter_title, key_points)` (uvz_server.py lines 149-163).
Note: `key_points` is embedded in the prompt verbatim (line 157 keeps the raw
string; only the blank-default is applied, no `sanitize_input`). -/
def expand_chapter (env : Env) (chapter_title : String) (key_points : String) :
    String × Trace :=
  if isBlank chapter_title then
    ("Error: Chapter title is required", Trace.empty)
  else if env.hasModel = false then
    ("Error: Gemini API key not configured", Trace.empty)
  else
    let chapter_clean := sanitize_input chapter_title
    let points_clean := if isBlank key_points then "Cover the main aspects"
                        else key_points
    let prompt := s!"Expand chapter: {chapter_clean}. Key points: {points_clean}. Provide: Opening Hook, Introduction, Main Sections (3-7 with key concepts, talking points, examples, mistakes to avoid, action steps), Chapter Summary, Transition. Include estimated word count and supporting elements needed."
    let ar := gemini_analyze env prompt
    let expansion := ar.1
    (s!"Chapter Expansion: {chapter_clean}\n\n{expansion}", ar.2)

/-- `generate_chapter_content(chapter_title, outline, tone)` (uvz_server.py
lines 165-180).  Note: `outline` is embedded in the prompt verbatim
(line 175, no `sanitize_input`). -/
def generate_chapter_content (env : Env) (chapter_title : String)
    (outline : String) (tone : String) : String × Trace :=
  if isBlank chapter_title || isBlank outline then
    ("Error: Chapter title and outline required", Trace.empty)
  else if env.hasModel = false then
    ("Error: Gemini API key not configured", Trace.empty)
  else
    let chapter_clean := sanitize_input chapter_title
    let tone_clean := sanitize_input tone
    let prompt := s!"Write full chapter in {tone_clean} tone: {chapter_clean}\n\nOutline:\n{outline}\n\nRequirements: engaging prose, examples, subheadings, bullet points for lists, actionable takeaways, 2000-3000 words."
    let ar := gemini_analyze env prompt
    let content := ar.1
    let word_count := (pySplitWs content).length
    (s!"Chapter Content: {chapter_clean}\n\n{content}\n\nStats: ~{word_count} words, {tone_clean} tone", ar.2)

/-- `competitive_analysis(uvz, competitors)` (uvz_server.py lines 182-201):
a single query, truncated to the first `competitors` results (default 5). -/
def competitive_analysis (env : Env) (uvz : String) (competitors : String) :
    String × Trace :=
  if isBlank uvz then ("Error: UVZ description is required", Trace.empty)
  else
    let uvz_clean := sanitize_input uvz
    match pyIntOr competitors 5 with
    | .error e => ("Error: " ++ e, Trace.empty)
    | .ok num_competitors =>
      let sr := web_search_free env s!"{uvz_clean} courses guides products solutions"
      let results_data := sr.1
      if results_data = [] then
        (s!"No competitors found for: {uvz_clean}", sr.2)
      else
        let competitors_text := joinSources (pyTake num_competitors results_data)
        if env.hasModel then
          let analysis_prompt := s!"Analyze competitors for: {uvz_clean}\n\n{competitors_text}\n\nProvide: Market Saturation, Competitor Strengths, Weaknesses, Market Gaps, Differentiation Strategy, Positioning, Pricing Insights, Content Strategy."
          let ar := gemini_analyze env analysis_prompt
          let analysis := ar.1
          (s!"Competitive Analysis: {uvz_clean}\n\n{analysis}\n\nCompetitors:\n{competitors_text}", sr.2 ++ ar.2)
        else
          (s!"Competitors: {uvz_clean}\n\n{competitors_text}", sr.2)

/-- `generate_marketing_copy(product_title, uvz, copy_type)` (uvz_server.py
lines 203-225): closed-set dispatch on the *sanitized* copy type. -/
def generate_marketing_copy (env : Env) (product_title : String) (uvz : String)
    (copy_type : String) : String × Trace :=
  if isBlank product_title || isBlank uvz then
    ("Error: Product title and UVZ required", Trace.empty)
  else if env.hasModel = false then
    ("Error: Gemini API key not configured", Trace.empty)
  else
    let title_clean := sanitize_input product_title
    let uvz_clean := sanitize_input uvz
    let copy_type_clean := sanitize_input copy_type
    let prompt? : Option String :=
      if copy_type_clean = "landing_page" then
        some s!"Create high-converting landing page for: {title_clean}, UVZ: {uvz_clean}. Include: Hero (headline, subheadline, CTA), Problem, Solution, Benefits, Social Proof, Features, Guarantee, Final CTA, FAQ."
      else if copy_type_clean = "email_sequence" then
        some s!"Create 5-email sequence for: {title_clean}, UVZ: {uvz_clean}. Each email: subject, preview, body (300-500 words), CTA. Emails: 1-Welcome, 2-Story+Problem, 3-Solution, 4-Social Proof, 5-Urgency."
      else if copy_type_clean = "social_posts" then
        some s!"Create 10 social posts for: {title_clean}, UVZ: {uvz_clean}. Include 3 educational, 3 engagement, 2 promotional, 2 testimonial posts. Each: platform, text, hashtags, visual description."
      else none
    match prompt? with
    | none =>
      ("Error: Unknown copy type. Use: landing_page, email_sequence, or social_posts", Trace.empty)
    | some prompt =>
      let ar := gemini_analyze env prompt
      let copy_content := ar.1
      (s!"Marketing Copy: {copy_type_clean}\n\nProduct: {title_clean}\n\n{copy_content}", ar.2)

/-! ## Concrete environments used by witnesses and counterexamples -/

/-- Process started without `GEMINI_API_KEY`; collaborators are irrelevant. -/
def envNoKey : Env := ⟨false, fun _ => .error "unreachable", fun _ => .exn "down"⟩

/-- Configured backend answering `"MOCK_ANALYSIS"`; search finds nothing. -/
def envMock : Env := ⟨true, fun _ => .ok "MOCK_ANALYSIS", fun _ => .ok []⟩

/-- Configured backend; every search request times out. -/
def envDown : Env := ⟨true, fun _ => .ok "MOCK_ANALYSIS", fun _ => .exn "timeout"⟩

/-! ## Helper lemmas -/

theorem Trace.append_queries (a b : Trace) :
    (a ++ b).queries = a.queries ++ b.queries := rfl

theorem Trace.append_prompts (a b : Trace) :
    (a ++ b).prompts = a.prompts ++ b.prompts := rfl

/-- `web_search_free` always records exactly its own query and no prompt. -/
theorem web_search_free_trace (env : Env) (q : String) :
    (web_search_free env q).2 = ⟨[q], []⟩ := by
  unfold web_search_free
  cases env.fetch q <;> rfl

/-- With a configured backend, `gemini_analyze` records exactly one prompt. -/
theorem gemini_analyze_trace {env : Env} (hm : env.hasModel = true) (p : String) :
    (gemini_analyze env p).2 = ⟨[], [p]⟩ := by
  simp only [gemini_analyze, hm]
  cases env.gemini p <;> rfl

/-- `gemini_analyze` never issues a network search query. -/
theorem gemini_analyze_queries (env : Env) (p : String) :
    (gemini_analyze env p).2.queries = [] := by
  cases hm : env.hasModel
  · simp [gemini_analyze, hm, Trace.empty]
  · rw [gemini_analyze_trace hm]

/-- `web_search_free` issues exactly its own query. -/
theorem web_search_free_queries (env : Env) (q : String) :
    (web_search_free env q).2.queries = [q] := by
  rw [web_search_free_trace]

/-- `web_search_free` never calls the generative backend. -/
theorem web_search_free_prompts (env : Env) (q : String) :
    (web_search_free env q).2.prompts = [] := by
  rw [web_search_free_trace]

/-- Without a configured backend, `gemini_analyze` is the fixed sentinel and
touches nothing. -/
theorem gemini_analyze_noKey (env : Env) (p : String) (hm : env.hasModel = false) :
    gemini_analyze env p = ("Error: Gemini API key not configured", Trace.empty) := by
  simp [gemini_analyze, hm]

/-! ## Claims -/

/-- **C2.** Every character of `sanitize_input x` lies in the allowed set
`[A-Za-z0-9_\s\-,.]` (word characters, ASCII whitespace, hyphen, comma,
period); every character outside that set having been removed.  Totality is
inherent: `sanitize_input` is a plain function with no failure channel. -/
theorem sanitize_output_chars_allowed (s : String) (c : Char)
    (h : c ∈ (sanitize_input s).data) :
    ('A' ≤ c ∧ c ≤ 'Z') ∨ ('a' ≤ c ∧ c ≤ 'z') ∨ ('0' ≤ c ∧ c ≤ '9') ∨
    c = '_' ∨ c = ' ' ∨ c = '\t' ∨ c = '\n' ∨ c = '\r' ∨ c = '\x0b' ∨
    c = '\x0c' ∨ c = '-' ∨ c = ',' ∨ c = '.' := by
  have hall : isAllowedChar c = true := (List.mem_filter.mp h).2
  simp only [isAllowedChar, Char.isAlpha, Char.isUpper, Char.isLower, Char.isDigit,
    pyIsSpace, Bool.or_eq_true, Bool.and_eq_true, decide_eq_true_eq] at hall
  simp only [Char.le_def, ge_iff_le] at *
  rcases hall with ((((((⟨h1, h2⟩ | ⟨h1, h2⟩) | ⟨h1, h2⟩) | h1) |
      ((((h1 | h1) | h1) | h1) | h1) | h1) | h1) | h1) | h1 <;>
    first
      | exact Or.inl ⟨h1, h2⟩
      | exact Or.inr (Or.inl ⟨h1, h2⟩)
      | exact Or.inr (Or.inr (Or.inl ⟨h1, h2⟩))
      | simp [h1]

/-- Witness for C2 at `s = "a-b!"`, `c = '-'`. -/
theorem sanitize_output_chars_allowed_witness :
    '-' ∈ (sanitize_input "a-b!").data ∧
    (('A' ≤ '-' ∧ '-' ≤ 'Z') ∨ ('a' ≤ '-' ∧ '-' ≤ 'z') ∨ ('0' ≤ '-' ∧ '-' ≤ '9') ∨
     '-' = '_' ∨ '-' = ' ' ∨ '-' = '\t' ∨ '-' = '\n' ∨ '-' = '\r' ∨ '-' = '\x0b' ∨
     '-' = '\x0c' ∨ '-' = '-' ∨ '-' = ',' ∨ '-' = '.') :=
  ⟨by decide, sanitize_output_chars_allowed "a-b!" '-' (by decide)⟩

/-- **C9.** `sanitize_input` is idempotent and fixes the empty string. -/
theorem sanitize_idempotent :
    (∀ s, sanitize_input (sanitize_input s) = sanitize_input s) ∧
    sanitize_input "" = "" := by
  constructor
  · intro s
    simp [sanitize_input, List.filter_filter]
  · rfl

/-- **C3.** If the fetch + parse inside `web_search_free` raises (transport
error, non-2xx status, timeout, or parse exception), the caller receives the
empty result list; no exception escapes (the embedding returns a plain value,
with no failure channel in its type). -/
theorem web_search_failure_returns_empty (env : Env) (q e : String)
    (h : env.fetch q = .exn e) :
    (web_search_free env q).1 = [] := by
  unfold web_search_free
  rw [h]

/-- Witness for C3 on an environment whose every fetch times out. -/
theorem web_search_failure_returns_empty_witness :
    envDown.fetch "solo coaching" = .exn "timeout" ∧
    (web_search_free envDown "solo coaching").1 = [] :=
  ⟨rfl, web_search_failure_returns_empty envDown "solo coaching" "timeout" rfl⟩

/-- **C5.** With the backend configured, an unknown copy type yields exactly
the closed-set dispatch error, and the trace is empty: the backend is called
zero times. -/
theorem unknown_copy_type_error_no_backend (g : String → Except String String)
    (f : String → FetchOutcome) :
    generate_marketing_copy ⟨true, g, f⟩ "T" "U" "bogus" =
      ("Error: Unknown copy type. Use: landing_page, email_sequence, or social_posts",
       Trace.empty) := rfl

/-- **C7.** Blank `sources` defaults the count to 10 (the call behaves exactly
like `sources="10"`), while non-numeric `sources="abc"` is caught by the
operation's `try/except` and surfaces as an `"Error: ..."` string with no
search issued, never as a raised exception. -/
theorem research_sources_parsing :
    (∀ env topic, research_uvz_topic env topic "" = research_uvz_topic env topic "10") ∧
    (∀ env, research_uvz_topic env "x" "abc" =
      ("Error: invalid literal for int() with base 10: \x27abc\x27", Trace.empty)) :=
  ⟨fun _ _ => rfl, fun _ => rfl⟩

/-- **C10.** `copy_type = "landing_page!"` is none of the three literals, yet
`generate_marketing_copy` does not return the unknown-copy-type error: the
mode is sanitized to `"landing_page"` before the dispatch, so the backend is
called (once). -/
theorem sanitized_copy_type_dispatch :
    (generate_marketing_copy envMock "T" "U" "landing_page!").1 ≠
        "Error: Unknown copy type. Use: landing_page, email_sequence, or social_posts" ∧
    (generate_marketing_copy envMock "T" "U" "landing_page!").2.prompts.length = 1 ∧
    sanitize_input "landing_page!" = "landing_page" := by
  refine ⟨?_, rfl, rfl⟩
  decide

/-- **C4.** With no backend credential configured at startup
(`env.hasModel = false`), each operation that requires the model — the six
that guard on `if not model` — returns exactly
`"Error: Gemini API key not configured"` with an empty trace (backend never
invoked, no search either) whenever its required fields are non-blank; in
particular `drill_uvz(niche="solo coaches")` returns exactly that string.
(The three search operations `research_uvz_topic`, `validate_uvz_demand`
and `competitive_analysis` instead degrade to search-only reports.) -/
theorem missing_key_fixed_error :
    (∀ env industry depth, env.hasModel = false → isBlank industry = false →
      identify_industry_niches env industry depth =
        ("Error: Gemini API key not configured", Trace.empty)) ∧
    (∀ env niche focus, env.hasModel = false → isBlank niche = false →
      drill_uvz env niche focus =
        ("Error: Gemini API key not configured", Trace.empty)) ∧
    (∀ env topic audience len, env.hasModel = false → isBlank topic = false →
      generate_ebook_outline env topic audience len =
        ("Error: Gemini API key not configured", Trace.empty)) ∧
    (∀ env ct kp, env.hasModel = false → isBlank ct = false →
      expand_chapter env ct kp =
        ("Error: Gemini API key not configured", Trace.empty)) ∧
    (∀ env ct outl tone, env.hasModel = false → isBlank ct = false →
        isBlank outl = false →
      generate_chapter_content env ct outl tone =
        ("Error: Gemini API key not configured", Trace.empty)) ∧
    (∀ env pt uvz ctype, env.hasModel = false → isBlank pt = false →
        isBlank uvz = false →
      generate_marketing_copy env pt uvz ctype =
        ("Error: Gemini API key not configured", Trace.empty)) ∧
    (∀ env, env.hasModel = false →
      drill_uvz env "solo coaches" "" =
        ("Error: Gemini API key not configured", Trace.empty)) := by
  refine ⟨?_, ?_, ?_, ?_, ?_, ?_, ?_⟩
  · intro env a d hm hb; simp [identify_industry_niches, hb, hm]
  · intro env a f hm hb; simp [drill_uvz, hb, hm]
  · intro env a au l hm hb; simp [generate_ebook_outline, hb, hm]
  · intro env a k hm hb; simp [expand_chapter, hb, hm]
  · intro env a o t hm hb hb2; simp [generate_chapter_content, hb, hb2, hm]
  · intro env a u c hm hb hb2; simp [generate_marketing_copy, hb, hb2, hm]
  · intro env hm
    have hb : isBlank "solo coaches" = false := by decide
    simp [drill_uvz, hb, hm]

/-- Witness for C4: the no-key environment with non-blank fields. -/
theorem missing_key_fixed_error_witness :
    envNoKey.hasModel = false ∧ isBlank "pets" = false ∧
    identify_industry_niches envNoKey "pets" "3" =
      ("Error: Gemini API key not configured", Trace.empty) ∧
    drill_uvz envNoKey "solo coaches" "" =
      ("Error: Gemini API key not configured", Trace.empty) :=
  ⟨rfl, by decide,
   missing_key_fixed_error.1 envNoKey "pets" "3" rfl (by decide),
   missing_key_fixed_error.2.2.2.2.2.2 envNoKey rfl⟩

/-- **C6.** Each of the nine operations, given all-blank required fields,
returns its fixed `"Error: ..."` validation string and performs no
search-network call and no backend call (empty trace). -/
theorem blank_required_fields_error_no_calls :
    (∀ env industry depth, isBlank industry = true →
      identify_industry_niches env industry depth =
        ("Error: Industry name is required", Trace.empty)) ∧
    (∀ env niche focus, isBlank niche = true →
      drill_uvz env niche focus =
        ("Error: Niche description is required", Trace.empty)) ∧
    (∀ env topic sources, isBlank topic = true →
      research_uvz_topic env topic sources =
        ("Error: Topic is required", Trace.empty)) ∧
    (∀ env uvz, isBlank uvz = true →
      validate_uvz_demand env uvz =
        ("Error: UVZ description is required", Trace.empty)) ∧
    (∀ env topic audience len, isBlank topic = true →
      generate_ebook_outline env topic audience len =
        ("Error: Topic is required", Trace.empty)) ∧
    (∀ env ct kp, isBlank ct = true →
      expand_chapter env ct kp =
        ("Error: Chapter title is required", Trace.empty)) ∧
    (∀ env ct outl tone, isBlank ct = true → isBlank outl = true →
      generate_chapter_content env ct outl tone =
        ("Error: Chapter title and outline required", Trace.empty)) ∧
    (∀ env uvz competitors, isBlank uvz = true →
      competitive_analysis env uvz competitors =
        ("Error: UVZ description is required", Trace.empty)) ∧
    (∀ env pt uvz ctype, isBlank pt = true → isBlank uvz = true →
      generate_marketing_copy env pt uvz ctype =
        ("Error: Product title and UVZ required", Trace.empty)) := by
  refine ⟨?_, ?_, ?_, ?_, ?_, ?_, ?_, ?_, ?_⟩
  · intro env a d hb; simp [identify_industry_niches, hb]
  · intro env a f hb; simp [drill_uvz, hb]
  · intro env a s hb; simp [research_uvz_topic, hb]
  · intro env a hb; simp [validate_uvz_demand, hb]
  · intro env a au l hb; simp [generate_ebook_outline, hb]
  · intro env a k hb; simp [expand_chapter, hb]
  · intro env a o t hb hb2; simp [generate_chapter_content, hb]
  · intro env a c hb; simp [competitive_analysis, hb]
  · intro env a u c hb hb2; simp [generate_marketing_copy, hb]

/-- Witness for C6: all-blank required fields on a fully configured
environment. -/
theorem blank_required_fields_error_no_calls_witness :
    isBlank "" = true ∧
    identify_industry_niches envMock "" "3" =
      ("Error: Industry name is required", Trace.empty) ∧
    drill_uvz envMock "" "" =
      ("Error: Niche description is required", Trace.empty) ∧
    research_uvz_topic envMock "" "10" =
      ("Error: Topic is required", Trace.empty) ∧
    validate_uvz_demand envMock " " =
      ("Error: UVZ description is required", Trace.empty) ∧
    generate_ebook_outline envMock "" "" "50" =
      ("Error: Topic is required", Trace.empty) ∧
    expand_chapter envMock "" "" =
      ("Error: Chapter title is required", Trace.empty) ∧
    generate_chapter_content envMock "" "" "professional" =
      ("Error: Chapter title and outline required", Trace.empty) ∧
    competitive_analysis envMock "" "5" =
      ("Error: UVZ description is required", Trace.empty) ∧
    generate_marketing_copy envMock "" "" "landing_page" =
      ("Error: Product title and UVZ required", Trace.empty) :=
  ⟨by decide,
   blank_required_fields_error_no_calls.1 envMock "" "3" (by decide),
   blank_required_fields_error_no_calls.2.1 envMock "" "" (by decide),
   blank_required_fields_error_no_calls.2.2.1 envMock "" "10" (by decide),
   blank_required_fields_error_no_calls.2.2.2.1 envMock " " (by decide),
   blank_required_fields_error_no_calls.2.2.2.2.1 envMock "" "" "50" (by decide),
   blank_required_fields_error_no_calls.2.2.2.2.2.1 envMock "" "" (by decide),
   blank_required_fields_error_no_calls.2.2.2.2.2.2.1 envMock "" "" "professional"
     (by decide) (by decide),
   blank_required_fields_error_no_calls.2.2.2.2.2.2.2.1 envMock "" "5" (by decide),
   blank_required_fields_error_no_calls.2.2.2.2.2.2.2.2 envMock "" "" "landing_page"
     (by decide) (by decide)⟩

/-- Search environment with four titled result blocks for every query
(enough to observe truncation boundaries); no backend key. -/
def envHits : Env :=
  ⟨false, fun _ => .error "unused", fun _ =>
    .ok [⟨some "t1", "l1", some "s1"⟩, ⟨some "t2", "l2", some "s2"⟩,
         ⟨some "t3", "l3", some "s3"⟩, ⟨some "t4", "l4", some "s4"⟩]⟩

/-- **C8, counterexample.** The claim says `competitive_analysis` issues 2 to
3 search queries; it issues exactly one (uvz_server.py line 190 is the only
search call in its body). -/
theorem competitive_single_query_counterexample :
    (competitive_analysis envMock "U" "5").2.queries.length = 1 ∧
    ¬ 2 ≤ (competitive_analysis envMock "U" "5").2.queries.length := by decide

/-- **C8, amended.** `validate_uvz_demand` issues exactly its three fixed
queries sequentially, truncates each query's results to the first 3 and
concatenates the truncated lists in query order with no deduplication;
`competitive_analysis` issues exactly one query and truncates its results to
the first `competitors` results (default 5). -/
theorem multi_query_aggregation :
    (∀ env u, isBlank u = false →
      (validate_uvz_demand env u).2.queries =
        (let v := sanitize_input u
         [s!"{v} problems", s!"{v} solutions needed", s!"how to {v}"])) ∧
    (∀ env u, isBlank u = false → env.hasModel = false →
      (let v := sanitize_input u
       let r1 := (web_search_free env s!"{v} problems").1
       let r2 := (web_search_free env s!"{v} solutions needed").1
       let r3 := (web_search_free env s!"how to {v}").1
       let agg := r1.take 3 ++ r2.take 3 ++ r3.take 3
       agg ≠ [] →
         (validate_uvz_demand env u).1 =
           (let fd := joinSignals agg
            s!"Market Signals: {v}\n\n{fd}"))) ∧
    (∀ env u comps n, isBlank u = false → pyIntOr comps 5 = .ok n →
      (competitive_analysis env u comps).2.queries =
        (let v := sanitize_input u
         [s!"{v} courses guides products solutions"])) ∧
    (∀ env u comps n, isBlank u = false → pyIntOr comps 5 = .ok n →
        env.hasModel = false →
      (let v := sanitize_input u
       let rs := (web_search_free env s!"{v} courses guides products solutions").1
       rs ≠ [] →
         (competitive_analysis env u comps).1 =
           (let ct := joinSources (pyTake n rs)
            s!"Competitors: {v}\n\n{ct}"))) := by
  refine ⟨?_, ?_, ?_, ?_⟩
  · intro env u hb
    simp only [validate_uvz_demand, hb, Bool.false_eq_true, if_false]
    split
    · simp [Trace.append_queries, web_search_free_queries]
    · split <;>
        simp [Trace.append_queries, web_search_free_queries, gemini_analyze_queries]
  · intro env u hb hm
    intro v r1 r2 r3 agg hne
    simp only [validate_uvz_demand, hb, hm, Bool.false_eq_true, if_false]
    split
    · exact absurd (by assumption) hne
    · unfold agg r1 r2 r3 v
      simp [List.append_assoc]
  · intro env u comps n hb hp
    simp only [competitive_analysis, hb, hp, Bool.false_eq_true, if_false]
    split
    · simp [web_search_free_queries]
    · split <;>
        simp [Trace.append_queries, web_search_free_queries, gemini_analyze_queries]
  · intro env u comps n hb hp hm
    intro v rs hne
    simp only [competitive_analysis, hb, hp, hm, Bool.false_eq_true, if_false]
    split
    · exact absurd (by assumption) hne
    · unfold rs v
      simp [List.append_assoc]

/-- Witness for the amended C8 on `envHits` (four hits per query). -/
theorem multi_query_aggregation_witness :
    ((validate_uvz_demand envHits "U").2.queries =
      (let v := sanitize_input "U"
       [s!"{v} problems", s!"{v} solutions needed", s!"how to {v}"])) ∧
    ((competitive_analysis envHits "U" "5").2.queries =
      (let v := sanitize_input "U"
       [s!"{v} courses guides products solutions"])) ∧
    ((competitive_analysis envHits "U" "5").1 =
      (let v := sanitize_input "U"
       let rs := (web_search_free envHits s!"{v} courses guides products solutions").1
       let ct := joinSources (pyTake 5 rs)
       s!"Competitors: {v}\n\n{ct}")) :=
  ⟨multi_query_aggregation.1 envHits "U" (by decide),
   multi_query_aggregation.2.2.1 envHits "U" "5" 5 (by decide) rfl,
   (multi_query_aggregation.2.2.2 envHits "U" "5" 5 (by decide) rfl rfl) (by decide)⟩

/-!
## Spec-side prompt composers (C1)

Following the spec's Prompt Composer contract (§4.3): one fixed template per
operation whose slots are filled with already-processed field values.  Which
argument of each composer receives a sanitized value and which receives a
verbatim string is exactly what claim C1 is about, so the composers take the
slot values as parameters and the claim theorem states which expression is
plugged into each slot.
-/

/-- Template of `identify_industry_niches` (line 67). -/
def specPromptIdentify (industry : String) (depth : Int) : String :=
  s!"Analyze the {industry} industry and identify {depth} highly specific niches. For each provide: 1. Niche Name 2. Market Size 3. Unique Value Zone (UVZ) 4. Target Audience 5. Differentiation 6. Monetization Potential. Format as structured markdown."

/-- Template of `drill_uvz` (line 83). -/
def specPromptDrill (niche focus : String) : String :=
  s!"Deep UVZ analysis for niche: {niche}, focus: {focus}. Provide: Problem Statement, Target Avatar, Current Solutions, The Gap, Value Proposition, Validation Signals, Competition Level, Monetization Pathways, Quick Win Strategy. Be extremely specific."

/-- Template of `research_uvz_topic` (line 103); `sources_text` is the
serialized search listing, inserted verbatim. -/
def specPromptResearch (topic sources_text : String) : String :=
  s!"Based on these search results about \x27{topic}\x27, provide: Key Insights, Common Themes, Best Practices, Knowledge Gaps, Content Opportunities.\n\n{sources_text}"

/-- Template of `validate_uvz_demand` (line 125); `findings` is the serialized
signal listing, inserted verbatim. -/
def specPromptValidate (uvz findings : String) : String :=
  s!"Analyze market signals for: {uvz}\n\n{findings}\n\nProvide: Demand Level, Market Signals, Competition Analysis, Opportunity Score (1-10), Red Flags, Green Lights, Recommended Action (Go/No-Go)."

/-- Template of `generate_ebook_outline` (line 143). -/
def specPromptEbook (topic audience : String) (pages : Int) : String :=
  s!"Create comprehensive ebook outline for: Topic: {topic}, Audience: {audience}, Length: ~{pages} pages. Include: Title, Subtitle, Target Reader, Chapter Structure (10+ chapters with objectives, sections, estimated pages), Unique Selling Points, Key Takeaways, Marketing Hooks."

/-- Template of `expand_chapter` (line 159). -/
def specPromptExpand (chapter points : String) : String :=
  s!"Expand chapter: {chapter}. Key points: {points}. Provide: Opening Hook, Introduction, Main Sections (3-7 with key concepts, talking points, examples, mistakes to avoid, action steps), Chapter Summary, Transition. Include estimated word count and supporting elements needed."

/-- Template of `generate_chapter_content` (line 175). -/
def specPromptChapterContent (tone chapter outl : String) : String :=
  s!"Write full chapter in {tone} tone: {chapter}\n\nOutline:\n{outl}\n\nRequirements: engaging prose, examples, subheadings, bullet points for lists, actionable takeaways, 2000-3000 words."

/-- Template of `competitive_analysis` (line 196); `competitors_text` is the
serialized search listing, inserted verbatim. -/
def specPromptCompetitive (uvz competitors_text : String) : String :=
  s!"Analyze competitors for: {uvz}\n\n{competitors_text}\n\nProvide: Market Saturation, Competitor Strengths, Weaknesses, Market Gaps, Differentiation Strategy, Positioning, Pricing Insights, Content Strategy."

/-- Landing-page template of `generate_marketing_copy` (line 215). -/
def specPromptLanding (title uvz : String) : String :=
  s!"Create high-converting landing page for: {title}, UVZ: {uvz}. Include: Hero (headline, subheadline, CTA), Problem, Solution, Benefits, Social Proof, Features, Guarantee, Final CTA, FAQ."

/-- Email-sequence template of `generate_marketing_copy` (line 217). -/
def specPromptEmail (title uvz : String) : String :=
  s!"Create 5-email sequence for: {title}, UVZ: {uvz}. Each email: subject, preview, body (300-500 words), CTA. Emails: 1-Welcome, 2-Story+Problem, 3-Solution, 4-Social Proof, 5-Urgency."

/-- Social-posts template of `generate_marketing_copy` (line 219). -/
def specPromptSocial (title uvz : String) : String :=
  s!"Create 10 social posts for: {title}, UVZ: {uvz}. Include 3 educational, 3 engagement, 2 promotional, 2 testimonial posts. Each: platform, text, hashtags, visual description."

/-- **C1, counterexample.** `expand_chapter`'s `key_points` slot is filled
with the raw user string, not its sanitized form: the prompt sent for
`key_points = "a<b>c"` contains `'<'`, a character that can never occur in
any output of `sanitize_input` (indeed `sanitize_input "a<b>c" = "abc"`). -/
theorem expand_chapter_raw_key_points :
    '<' ∈ ((expand_chapter envMock "T" "a<b>c").2.prompts.headD "").data ∧
    '<' ∉ (sanitize_input "a<b>c").data ∧
    sanitize_input "a<b>c" = "abc" := by
  refine ⟨by decide, by decide, rfl⟩

/-- **C1, amended.** For every operation run with a configured backend and
valid fields, each prompt sent to the analysis backend is its operation's
fixed template whose user-field slots are filled with the *sanitized* form of
the corresponding argument — with two exceptions forced by the code:
`expand_chapter`'s `key_points` and `generate_chapter_content`'s `outline`
are inserted verbatim.  Search-harvested listing text (`sources_text`,
`findings`, `competitors_text`) is inserted verbatim as well, as the claim
allows. -/
theorem prompt_slots_sanitized :
    (∀ env a d n, isBlank a = false → env.hasModel = true →
        pyIntOr d 3 = .ok n →
      (identify_industry_niches env a d).2.prompts =
        [specPromptIdentify (sanitize_input a) n]) ∧
    (∀ env a f, isBlank a = false → env.hasModel = true →
      (drill_uvz env a f).2.prompts =
        [specPromptDrill (sanitize_input a)
          (if isBlank f then "general opportunities" else sanitize_input f)]) ∧
    (∀ env a srcs n, isBlank a = false → env.hasModel = true →
        pyIntOr srcs 10 = .ok n →
      (research_uvz_topic env a srcs).2.prompts =
        (let v := sanitize_input a
         let rs := (web_search_free env s!"{v} guide tutorial best practices").1
         if rs = [] then []
         else
           let st := joinSources (pyTake n rs)
           [specPromptResearch v st])) ∧
    (∀ env u, isBlank u = false → env.hasModel = true →
      (validate_uvz_demand env u).2.prompts =
        (let v := sanitize_input u
         let r1 := (web_search_free env s!"{v} problems").1
         let r2 := (web_search_free env s!"{v} solutions needed").1
         let r3 := (web_search_free env s!"how to {v}").1
         let agg := r1.take 3 ++ r2.take 3 ++ r3.take 3
         if agg = [] then []
         else
           let fd := joinSignals agg
           [specPromptValidate v fd])) ∧
    (∀ env a au len n, isBlank a = false → env.hasModel = true →
        pyIntOr len 50 = .ok n →
      (generate_ebook_outline env a au len).2.prompts =
        [specPromptEbook (sanitize_input a)
          (if isBlank au then "general audience" else sanitize_input au) n]) ∧
    (∀ env a kp, isBlank a = false → env.hasModel = true →
      (expand_chapter env a kp).2.prompts =
        [specPromptExpand (sanitize_input a)
          (if isBlank kp then "Cover the main aspects" else kp)]) ∧
    (∀ env a outl tone, isBlank a = false → isBlank outl = false →
        env.hasModel = true →
      (generate_chapter_content env a outl tone).2.prompts =
        [specPromptChapterContent (sanitize_input tone) (sanitize_input a) outl]) ∧
    (∀ env u comps n, isBlank u = false → env.hasModel = true →
        pyIntOr comps 5 = .ok n →
      (competitive_analysis env u comps).2.prompts =
        (let v := sanitize_input u
         let rs := (web_search_free env s!"{v} courses guides products solutions").1
         if rs = [] then []
         else
           let ct := joinSources (pyTake n rs)
           [specPromptCompetitive v ct])) ∧
    (∀ env pt uvz ctype, isBlank pt = false → isBlank uvz = false →
        env.hasModel = true →
      (generate_marketing_copy env pt uvz ctype).2.prompts =
        (let t := sanitize_input pt
         let u := sanitize_input uvz
         let m := sanitize_input ctype
         if m = "landing_page" then [specPromptLanding t u]
         else if m = "email_sequence" then [specPromptEmail t u]
         else if m = "social_posts" then [specPromptSocial t u]
         else [])) := by
  refine ⟨?_, ?_, ?_, ?_, ?_, ?_, ?_, ?_, ?_⟩
  · intro env a d n hb hm hp
    simp only [identify_industry_niches, hb, hm, hp, Bool.false_eq_true,
      Bool.true_eq_false, if_false]
    simp [gemini_analyze_trace hm, specPromptIdentify]
  · intro env a f hb hm
    simp only [drill_uvz, hb, hm, Bool.false_eq_true, Bool.true_eq_false,
      if_false]
    simp [gemini_analyze_trace hm, specPromptDrill]
  · intro env a srcs n hb hm hp
    simp only [research_uvz_topic, hb, hm, hp, Bool.false_eq_true,
      Bool.true_eq_false, if_false, if_true]
    split
    · rename_i he
      simp [web_search_free_prompts, he]
    · rename_i hne
      simp [Trace.append_prompts, web_search_free_prompts,
        gemini_analyze_trace hm, specPromptResearch, hne]
  · intro env u hb hm
    simp only [validate_uvz_demand, hb, hm, Bool.false_eq_true,
      Bool.true_eq_false, if_false, if_true]
    split
    · rename_i he
      simp [Trace.append_prompts, web_search_free_prompts, he]
    · rename_i hne
      simp [Trace.append_prompts, web_search_free_prompts,
        gemini_analyze_trace hm, specPromptValidate, hne]
  · intro env a au len n hb hm hp
    simp only [generate_ebook_outline, hb, hm, hp, Bool.false_eq_true,
      Bool.true_eq_false, if_false]
    simp [gemini_analyze_trace hm, specPromptEbook]
  · intro env a kp hb hm
    simp only [expand_chapter, hb, hm, Bool.false_eq_true, Bool.true_eq_false,
      if_false]
    simp [gemini_analyze_trace hm, specPromptExpand]
  · intro env a outl tone hb hb2 hm
    simp only [generate_chapter_content, hb, hb2, hm, Bool.false_eq_true,
      Bool.true_eq_false, if_false, Bool.or_self]
    simp [gemini_analyze_trace hm, specPromptChapterContent]
  · intro env u comps n hb hm hp
    simp only [competitive_analysis, hb, hm, hp, Bool.false_eq_true,
      Bool.true_eq_false, if_false, if_true]
    split
    · rename_i he
      simp [web_search_free_prompts, he]
    · rename_i hne
      simp [Trace.append_prompts, web_search_free_prompts,
        gemini_analyze_trace hm, specPromptCompetitive, hne]
  · intro env pt uvz ctype hb1 hb2 hm
    simp only [generate_marketing_copy, hb1, hb2, hm, Bool.false_eq_true,
      Bool.true_eq_false, if_false, Bool.or_self]
    split_ifs <;>
      simp [gemini_analyze_trace hm, specPromptLanding, specPromptEmail,
        specPromptSocial, Trace.empty]

/-- Witness for the amended C1: `expand_chapter` with raw key points and
`identify_industry_niches` with a sanitized industry slot. -/
theorem prompt_slots_sanitized_witness :
    (expand_chapter envMock "Intro" "k<1>, k2").2.prompts =
      [specPromptExpand (sanitize_input "Intro")
        (if isBlank "k<1>, k2" then "Cover the main aspects" else "k<1>, k2")] ∧
    (identify_industry_niches envMock "pet grooming" "2").2.prompts =
      [specPromptIdentify (sanitize_input "pet grooming") 2] :=
  ⟨prompt_slots_sanitized.2.2.2.2.2.1 envMock "Intro" "k<1>, k2" (by decide) rfl,
   prompt_slots_sanitized.1 envMock "pet grooming" "2" 2 (by decide) rfl rfl⟩
